import Mathlib

/-!
Verification of the `llm_processor` module (src/app/server/core/llm_processor.py).

Python strings are modelled as `List Char`; Python dicts (which iterate in
insertion order) are modelled as association lists.  The two external LLM
endpoints are modelled as parameters of type `List Char → Except (List Char) (List Char)`:
given the prompt they either return the response text or raise with an error
message.  Reading `os.environ` is modelled by an explicit `Env` record.
-/

namespace LLMProcessor

/-- Python truthiness of `os.environ.get(name)`: `None` and the empty string
are falsy, any non-empty string is truthy. -/
def envTruthy : Option (List Char) → Bool
  | none => false
  | some s => !s.isEmpty

/-- ASCII whitespace, as stripped by Python `str.strip()`
(the module only ever meets ASCII text). -/
def pyIsSpace (c : Char) : Bool :=
  c = ' ' || c = '\t' || c = '\n' || c = '\r' || c = '\x0b' || c = '\x0c'

/-- Python `str.lstrip()`. -/
def lstrip (s : List Char) : List Char := s.dropWhile pyIsSpace

/-- Python `str.rstrip()`. -/
def rstrip (s : List Char) : List Char := (s.reverse.dropWhile pyIsSpace).reverse

/-- Python `str.strip()`. -/
def pyStrip (s : List Char) : List Char := rstrip (lstrip s)

/-- The environment variables the module reads. `none` means the variable
is absent from the process environment. -/
structure Env where
  OPENAI_API_KEY : Option (List Char)
  AWS_ACCESS_KEY_ID : Option (List Char)
  AWS_ACCESS_KEY : Option (List Char)
  AWS_SECRET_ACCESS_KEY : Option (List Char)

/-- The `core.data_models.QueryRequest` model: the natural-language query and the
caller-supplied provider preference. -/
structure QueryRequest where
  query : List Char
  llm_provider : List Char

/-- One `table_info` value: columns in dict insertion order (name, declared type)
and the row count. -/
structure TableInfo where
  columns : List (List Char × List Char)
  row_count : Nat

/-- The `schema_info` dict: `tables` is `none` when the key is absent. -/
structure SchemaInfo where
  tables : Option (List (List Char × TableInfo))

/-- Decimal digit character, `chr(48 + d)` for `d < 10`. -/
def digitChar (d : Nat) : Char := Char.ofNat (48 + d)

/-- Fuel-driven digit accumulator behind `natRepr`; the fuel bounds the
number of divisions by 10 and always suffices at `n + 1`. -/
def natReprGo : Nat → Nat → List Char → List Char
  | 0, _, acc => acc
  | fuel+1, n, acc =>
    if n < 10 then digitChar n :: acc
    else natReprGo fuel (n / 10) (digitChar (n % 10) :: acc)

/-- Decimal rendering of a natural number, as Python `str(n)` produces
for a non-negative `int`. -/
def natRepr (n : Nat) : List Char := natReprGo (n+1) n []

/-- Python `"\n".join(lines)` (more generally `sep.join`). -/
def pyJoin (sep : List Char) : List (List Char) → List Char
  | [] => []
  | [x] => x
  | x :: y :: xs => x ++ sep ++ pyJoin sep (y :: xs)

/-- The `lines` list built by `format_schema_for_prompt` for one table:
`"Table: <name>"`, `"Columns:"`, one `"  - <name> (<type>)"` entry per
column, `"Row count: <n>"`, and the empty string appended at the end of
each table's block (lines 146-153 of `llm_processor.py`). -/
def tableLines (name : List Char) (ti : TableInfo) : List (List Char) :=
  ("Table: ".data ++ name) ::
  "Columns:".data ::
  (ti.columns.map (fun c => "  - ".data ++ c.1 ++ " (".data ++ c.2 ++ [')'])) ++
  [("Row count: ".data ++ natRepr ti.row_count), []]

/-- The full `lines` list built by `format_schema_for_prompt`. -/
def schemaLines (tables : List (List Char × TableInfo)) : List (List Char) :=
  tables.flatMap (fun t => tableLines t.1 t.2)

/-- Embedding of `format_schema_for_prompt` (lines 139-155): iterate over
`schema_info.get('tables', {})` in insertion order, build the `lines`
list and return `"\n".join(lines)`. -/
def format_schema_for_prompt (schema_info : SchemaInfo) : List Char :=
  pyJoin ['\n'] (schemaLines (schema_info.tables.getD []))

/-- First fence check (line 56 / 127): `if sql.startswith("```sql"): sql = sql[6:]`. -/
def strip_open_tagged (sql : List Char) : List Char :=
  if "```sql".data.isPrefixOf sql then sql.drop 6 else sql

/-- Second fence check (line 58 / 129): `if sql.startswith("```"): sql = sql[3:]`. -/
def strip_open_generic (sql : List Char) : List Char :=
  if "```".data.isPrefixOf sql then sql.drop 3 else sql

/-- Third fence check (line 60 / 131): `if sql.endswith("```"): sql = sql[:-3]`. -/
def strip_close (sql : List Char) : List Char :=
  if "```".data.isSuffixOf sql then sql.take (sql.length - 3) else sql

/-- The markdown fence-stripping step shared verbatim by both provider
functions (lines 56-63 and 127-134): the three sequential `if`s followed
by the final `sql.strip()`. -/
def strip_markdown_fences (sql : List Char) : List Char :=
  pyStrip (strip_close (strip_open_generic (strip_open_tagged sql)))

/-- The prompt template shared by both provider functions
(lines 27-40 and 96-109). -/
def build_prompt (query_text schema_description : List Char) : List Char :=
  "Given the following database schema:\n\n".data ++ schema_description ++
  "\n\nConvert this natural language query to SQL: \"".data ++ query_text ++
  "\"\n\nRules:\n- Return ONLY the SQL query, no explanations\n- Use proper SQLite syntax\n- Handle date/time queries appropriately (e.g., \"last week\" = date(\x27now\x27, \x27-7 days\x27))\n- Be careful with column names and table names\n- If the query is ambiguous, make reasonable assumptions\n\nSQL Query:".data

/-- The `try/except` wrapper each provider function ends with: any raised
error is re-raised with the provider-specific message prefixed, a normal
result passes through. -/
def wrapError (pre : List Char) :
    Except (List Char) (List Char) → Except (List Char) (List Char)
  | .error e => .error (pre ++ e)
  | .ok v => .ok v

/-- Embedding of `generate_sql_with_openai` (lines 11-66).  `api` models the OpenAI
client: applied to the prompt it yields the first choice's message content,
or raises with some message (covering client construction, the network
call and response indexing).  Any exception inside the `try` block is
re-raised as `"Error generating SQL with OpenAI: " + str(e)`. -/
def generate_sql_with_openai (env : Env)
    (api : List Char → Except (List Char) (List Char))
    (query_text : List Char) (schema_info : SchemaInfo) :
    Except (List Char) (List Char) :=
  wrapError "Error generating SQL with OpenAI: ".data
    (if envTruthy env.OPENAI_API_KEY then
      (api (build_prompt query_text (format_schema_for_prompt schema_info))).map
        (fun content => strip_markdown_fences (pyStrip content))
    else
      .error "OPENAI_API_KEY environment variable not set".data)

/-- Embedding of `has_bedrock_credentials` (lines 68-72):
`bool((get("AWS_ACCESS_KEY_ID") or get("AWS_ACCESS_KEY")) and get("AWS_SECRET_ACCESS_KEY"))`. -/
def has_bedrock_credentials (env : Env) : Bool :=
  let aws_access_key :=
    if envTruthy env.AWS_ACCESS_KEY_ID then env.AWS_ACCESS_KEY_ID else env.AWS_ACCESS_KEY
  envTruthy aws_access_key && envTruthy env.AWS_SECRET_ACCESS_KEY

/-- Embedding of `generate_sql_with_anthropic` (lines 74-137).  `api` models the
`AnthropicBedrock` client analogously.  Any exception inside the `try`
block is re-raised as `"Error generating SQL with Anthropic: " + str(e)`. -/
def generate_sql_with_anthropic (env : Env)
    (api : List Char → Except (List Char) (List Char))
    (query_text : List Char) (schema_info : SchemaInfo) :
    Except (List Char) (List Char) :=
  wrapError "Error generating SQL with Anthropic: ".data
    (if has_bedrock_credentials env then
      (api (build_prompt query_text (format_schema_for_prompt schema_info))).map
        (fun content => strip_markdown_fences (pyStrip content))
    else
      .error "AWS credentials not set (AWS_ACCESS_KEY_ID/AWS_ACCESS_KEY and AWS_SECRET_ACCESS_KEY)".data)

/-- Embedding of `generate_sql` (lines 157-175): provider dispatch.  `apiO` and `apiA`
are the two external endpoints. -/
def generate_sql (env : Env)
    (apiO apiA : List Char → Except (List Char) (List Char))
    (request : QueryRequest) (schema_info : SchemaInfo) :
    Except (List Char) (List Char) :=
  if envTruthy env.OPENAI_API_KEY then
    generate_sql_with_openai env apiO request.query schema_info
  else if has_bedrock_credentials env then
    generate_sql_with_anthropic env apiA request.query schema_info
  else if request.llm_provider = "openai".data then
    generate_sql_with_openai env apiO request.query schema_info
  else
    generate_sql_with_anthropic env apiA request.query schema_info

/-- The two providers `generate_sql` can dispatch to. -/
inductive Provider where
  | openai
  | anthropic
deriving DecidableEq

/-- The provider name as it appears in the wrapped error messages. -/
def providerName : Provider → List Char
  | .openai => "OpenAI".data
  | .anthropic => "Anthropic".data

/-- The provider `generate_sql` selects, read off the same cascade of
conditions as `generate_sql` itself (lines 162-175). -/
def selected_provider (env : Env) (request : QueryRequest) : Provider :=
  if envTruthy env.OPENAI_API_KEY then .openai
  else if has_bedrock_credentials env then .anthropic
  else if request.llm_provider = "openai".data then .openai
  else .anthropic

/-- The text `format_schema_for_prompt` contributes for a single table, as a
newline-terminated block: the `Table:` header line, the `Columns:` line, one
line per column, the `Row count:` line, and a blank line. -/
def table_block (name : List Char) (ti : TableInfo) : List Char :=
  "Table: ".data ++ name ++ ['\n'] ++ "Columns:\n".data ++
  (ti.columns.map (fun c => "  - ".data ++ c.1 ++ " (".data ++ c.2 ++ [')'] ++ ['\n'])).flatten ++
  "Row count: ".data ++ natRepr ti.row_count ++ ['\n'] ++ ['\n']

/-- Concatenation of the per-table blocks over the whole table list. -/
def schema_blocks (tables : List (List Char × TableInfo)) : List Char :=
  (tables.map (fun t => table_block t.1 t.2)).flatten

/-- The per-table block exactly as claim C3 words it — `"Table: <name>"`,
then one line per column, then `"Row count: <n>"`, then a blank line, with no
other lines in between (in particular, no `Columns:` line).  This definition
follows the claim's words, not the source; it exists to be compared against
`format_schema_for_prompt`. -/
def claimed_table_block (name : List Char) (ti : TableInfo) : List Char :=
  "Table: ".data ++ name ++ ['\n'] ++
  (ti.columns.map (fun c => "  - ".data ++ c.1 ++ " (".data ++ c.2 ++ [')'] ++ ['\n'])).flatten ++
  "Row count: ".data ++ natRepr ti.row_count ++ ['\n'] ++ ['\n']

/-- The whole output as claim C3 words it: the concatenation of the claimed
per-table blocks.  Follows the claim's words, not the source. -/
def claimed_format_schema (schema_info : SchemaInfo) : List Char :=
  ((schema_info.tables.getD []).map (fun t => claimed_table_block t.1 t.2)).flatten

/-- Python `s.split("\n")` on the character list: the list of lines of `s`
(`splitNl [] = [[]]`, matching `"".split("\n") == [""]`). -/
def splitNl : List Char → List (List Char)
  | [] => [[]]
  | c :: rest =>
    match splitNl rest with
    | [] => [[]]
    | l :: ls => if c = '\n' then [] :: l :: ls else (c :: l) :: ls

/-- A line of the formatted schema that is a `Table:` header. -/
def isTableHeaderLine (l : List Char) : Bool := "Table: ".data.isPrefixOf l

/-- A line of the formatted schema that is a `Row count:` line. -/
def isRowCountLine (l : List Char) : Bool := "Row count: ".data.isPrefixOf l

/-- A one-table, one-column schema used as concrete input. -/
def exSchema : SchemaInfo := ⟨some [("t".data, ⟨[("c".data, "INT".data)], 1⟩)]⟩

/-- A one-table schema whose table name itself contains a newline followed
by `"Table: "`, used to probe the header count. -/
def exSchemaNl : SchemaInfo := ⟨some [("a\nTable: b".data, ⟨[], 0⟩)]⟩

/-! Concrete fixtures, mirroring the mocks of
`src/app/server/tests/core/test_llm_processor.py`: an endpoint that answers
with a fixed SQL string and one that raises `Exception("API Error")`. -/

/-- A model endpoint that succeeds with a fixed response. -/
def apiOk : List Char → Except (List Char) (List Char) :=
  fun _ => .ok "SELECT * FROM users".data

/-- A model endpoint that raises `Exception("API Error")`. -/
def apiErr : List Char → Except (List Char) (List Char) :=
  fun _ => .error "API Error".data

/-- Environment with only the OpenAI key set (as in the tests). -/
def envOpenAI : Env := ⟨some "test-key".data, none, none, none⟩

/-- Environment with only the Bedrock credential pair set (as in the tests). -/
def envBedrock : Env := ⟨none, some "test-access-key".data, none, some "test-secret-key".data⟩

/-- Environment with no credentials at all. -/
def envEmpty : Env := ⟨none, none, none, none⟩

/-- Claim C1: If `OPENAI_API_KEY` is set and non-empty, `generate_sql` dispatches
to `generate_sql_with_openai` regardless of `request.llm_provider`; otherwise,
if the Bedrock credential pair is present, it dispatches to
`generate_sql_with_anthropic`, again regardless of `request.llm_provider`. -/
theorem generate_sql_credential_priority (env : Env)
    (apiO apiA : List Char → Except (List Char) (List Char))
    (req : QueryRequest) (schema : SchemaInfo) :
    (envTruthy env.OPENAI_API_KEY = true →
      generate_sql env apiO apiA req schema =
        generate_sql_with_openai env apiO req.query schema) ∧
    (envTruthy env.OPENAI_API_KEY = false → has_bedrock_credentials env = true →
      generate_sql env apiO apiA req schema =
        generate_sql_with_anthropic env apiA req.query schema) := by
  constructor
  · intro h; simp [generate_sql, h]
  · intro h1 h2; simp [generate_sql, h1, h2]

/-- Witness for C1 at the test fixtures: the OpenAI key wins even with an
`"anthropic"` preference, and with only Bedrock credentials the Anthropic
variant is chosen even with an `"openai"` preference. -/
theorem generate_sql_credential_priority_witness :
    (generate_sql envOpenAI apiOk apiErr ⟨"q".data, "anthropic".data⟩ ⟨some []⟩ =
      generate_sql_with_openai envOpenAI apiOk "q".data ⟨some []⟩) ∧
    (generate_sql envBedrock apiErr apiOk ⟨"q".data, "openai".data⟩ ⟨some []⟩ =
      generate_sql_with_anthropic envBedrock apiOk "q".data ⟨some []⟩) :=
  ⟨(generate_sql_credential_priority envOpenAI apiOk apiErr ⟨"q".data, "anthropic".data⟩
      ⟨some []⟩).1 rfl,
   (generate_sql_credential_priority envBedrock apiErr apiOk ⟨"q".data, "openai".data⟩
      ⟨some []⟩).2 rfl rfl⟩

/-- Claim C2: With neither the OpenAI key nor the Bedrock credential pair
present, `generate_sql` follows `request.llm_provider` exactly: `"openai"`
dispatches to the OpenAI variant, any other value to the Anthropic variant. -/
theorem generate_sql_follows_preference (env : Env)
    (apiO apiA : List Char → Except (List Char) (List Char))
    (req : QueryRequest) (schema : SchemaInfo)
    (h1 : envTruthy env.OPENAI_API_KEY = false)
    (h2 : has_bedrock_credentials env = false) :
    (req.llm_provider = "openai".data →
      generate_sql env apiO apiA req schema =
        generate_sql_with_openai env apiO req.query schema) ∧
    (req.llm_provider ≠ "openai".data →
      generate_sql env apiO apiA req schema =
        generate_sql_with_anthropic env apiA req.query schema) := by
  constructor <;> intro h <;> simp [generate_sql, h1, h2, h]

/-- Witness for C2: with an empty environment, preference `"openai"`
selects the OpenAI variant and preference `"anthropic"` the Anthropic one. -/
theorem generate_sql_follows_preference_witness :
    (generate_sql envEmpty apiOk apiErr ⟨"q".data, "openai".data⟩ ⟨some []⟩ =
      generate_sql_with_openai envEmpty apiOk "q".data ⟨some []⟩) ∧
    (generate_sql envEmpty apiErr apiOk ⟨"q".data, "anthropic".data⟩ ⟨some []⟩ =
      generate_sql_with_anthropic envEmpty apiOk "q".data ⟨some []⟩) :=
  ⟨(generate_sql_follows_preference envEmpty apiOk apiErr ⟨"q".data, "openai".data⟩
      ⟨some []⟩ rfl rfl).1 rfl,
   (generate_sql_follows_preference envEmpty apiErr apiOk ⟨"q".data, "anthropic".data⟩
      ⟨some []⟩ rfl rfl).2 (by decide)⟩

/-- Claim C5, counterexample: The claim says that on a string starting with
"```sql" only those six characters are stripped as the opening marker and the
generic check does not strip again.  On `"` ```sql``` SELECT 1 `"` the code
strips `"` ```sql `"` and then the generic check fires a second time on the
remainder, so the result differs from stripping the six characters alone. -/
theorem strip_fences_double_strip_cex :
    strip_markdown_fences "```sql``` SELECT 1".data = "SELECT 1".data ∧
    pyStrip (strip_close ("```sql``` SELECT 1".data.drop 6)) = "``` SELECT 1".data ∧
    strip_markdown_fences "```sql``` SELECT 1".data ≠
      pyStrip (strip_close ("```sql``` SELECT 1".data.drop 6)) := by
  refine ⟨by decide, by decide, by decide⟩

/-- Claim C5, amended: When the input starts with "```sql", those six characters
are stripped as the opening marker and the generic "```" check then runs on
the remainder: it strips three further characters exactly when the remainder
itself still starts with "```"; when it does not, only the six characters are
stripped before the closing-fence check and the final trim. -/
theorem strip_fences_tagged_then_generic (s : List Char)
    (h : "```sql".data.isPrefixOf s = true) :
    strip_markdown_fences s =
      pyStrip (strip_close (strip_open_generic (s.drop 6))) ∧
    ("```".data.isPrefixOf (s.drop 6) = false →
      strip_markdown_fences s = pyStrip (strip_close (s.drop 6))) := by
  constructor
  · simp [strip_markdown_fences, strip_open_tagged, h]
  · intro h2
    simp [strip_markdown_fences, strip_open_tagged, strip_open_generic, h, h2]

/-- Witness for C5 amended at `"` ```sql\nSELECT 1\n``` `"`, where the
remainder after the tag does not start with "```". -/
theorem strip_fences_tagged_then_generic_witness :
    strip_markdown_fences "```sql\nSELECT 1\n```".data =
      pyStrip (strip_close ("```sql\nSELECT 1\n```".data.drop 6)) :=
  (strip_fences_tagged_then_generic "```sql\nSELECT 1\n```".data (by decide)).2 (by decide)

/-- Claim C7: The fence stripper maps "```sql\nSELECT 1\n```" and
"```\nSELECT 1\n```" to "SELECT 1", and leaves "SELECT 1" unchanged. -/
theorem strip_fences_examples :
    strip_markdown_fences "```sql\nSELECT 1\n```".data = "SELECT 1".data ∧
    strip_markdown_fences "```\nSELECT 1\n```".data = "SELECT 1".data ∧
    strip_markdown_fences "SELECT 1".data = "SELECT 1".data := by
  refine ⟨by decide, by decide, by decide⟩

/-- Claim C9: A schema whose `tables` mapping is present but empty formats to
the empty string. -/
theorem format_schema_empty_tables (schema : SchemaInfo)
    (h : schema.tables = some []) :
    format_schema_for_prompt schema = [] := by
  simp [format_schema_for_prompt, schemaLines, h, pyJoin]

/-- Witness for C9 at the concrete empty schema. -/
theorem format_schema_empty_tables_witness :
    format_schema_for_prompt ⟨some []⟩ = [] :=
  format_schema_empty_tables ⟨some []⟩ rfl

/-- Claim C10: A schema dict with no `tables` key at all (`schema_info.get`
returns the default `{}`) also formats to the empty string; the lookup is
total, no exception is raised. -/
theorem format_schema_missing_tables_key (schema : SchemaInfo)
    (h : schema.tables = none) :
    format_schema_for_prompt schema = [] := by
  simp [format_schema_for_prompt, schemaLines, h, pyJoin]

/-- Witness for C10 at the concrete key-less schema. -/
theorem format_schema_missing_tables_key_witness :
    format_schema_for_prompt ⟨none⟩ = [] :=
  format_schema_missing_tables_key ⟨none⟩ rfl

theorem pyJoin_append (sep : List Char) (A B : List (List Char))
    (hA : A ≠ []) (hB : B ≠ []) :
    pyJoin sep (A ++ B) = pyJoin sep A ++ sep ++ pyJoin sep B := by
  induction A with
  | nil => exact absurd rfl hA
  | cons a A ih =>
    cases A with
    | nil =>
      obtain ⟨b, B', rfl⟩ := List.exists_cons_of_ne_nil hB
      simp [pyJoin]
    | cons a2 A' =>
      have h := ih (List.cons_ne_nil _ _)
      simp only [List.cons_append] at h ⊢
      simp only [pyJoin, h, List.append_assoc]

theorem pyJoin_terminated (L : List (List Char)) (hL : L ≠ []) :
    pyJoin ['\n'] L ++ ['\n'] = (L.map (fun l => l ++ ['\n'])).flatten := by
  induction L with
  | nil => exact absurd rfl hL
  | cons x L ih =>
    cases L with
    | nil => simp [pyJoin]
    | cons y L' =>
      have h := ih (List.cons_ne_nil _ _)
      calc pyJoin ['\n'] (x :: y :: L') ++ ['\n']
          = x ++ ['\n'] ++ (pyJoin ['\n'] (y :: L') ++ ['\n']) := by
            simp [pyJoin, List.append_assoc]
        _ = x ++ ['\n'] ++ ((y :: L').map (fun l => l ++ ['\n'])).flatten := by rw [h]
        _ = ((x :: y :: L').map (fun l => l ++ ['\n'])).flatten := by
            simp [List.append_assoc]

theorem tableLines_ne_nil (name : List Char) (ti : TableInfo) :
    tableLines name ti ≠ [] := by
  simp [tableLines]

theorem schemaLines_ne_nil (ts : List (List Char × TableInfo)) (h : ts ≠ []) :
    schemaLines ts ≠ [] := by
  obtain ⟨t, ts', rfl⟩ := List.exists_cons_of_ne_nil h
  simp [schemaLines, tableLines]

theorem table_block_ne_nil (name : List Char) (ti : TableInfo) :
    table_block name ti ≠ [] := by
  simp [table_block]

theorem schema_blocks_ne_nil (ts : List (List Char × TableInfo)) (h : ts ≠ []) :
    schema_blocks ts ≠ [] := by
  obtain ⟨t, ts', rfl⟩ := List.exists_cons_of_ne_nil h
  simp only [schema_blocks, List.map_cons, List.flatten_cons]
  intro hh
  rw [List.append_eq_nil] at hh
  exact table_block_ne_nil _ _ hh.1

theorem flatten_map_tableLines (name : List Char) (ti : TableInfo) :
    ((tableLines name ti).map (fun l => l ++ ['\n'])).flatten = table_block name ti := by
  simp only [tableLines, table_block, List.map_cons, List.map_append, List.map_map,
    List.flatten_cons, List.flatten_append]
  simp [Function.comp, List.append_assoc]
  congr 1
  exact List.map_congr_left fun c _ => by simp [Function.comp, List.append_assoc]

theorem pyJoin_tableLines (name : List Char) (ti : TableInfo) :
    pyJoin ['\n'] (tableLines name ti) ++ ['\n'] = table_block name ti := by
  rw [pyJoin_terminated _ (tableLines_ne_nil name ti), flatten_map_tableLines]

/-- Claim C3, counterexample: On a one-table, one-column schema the code's
output carries a `Columns:` line between the `Table:` header and the column
lines, so it is not the concatenation the claim describes. -/
theorem format_schema_columns_line_cex :
    format_schema_for_prompt exSchema =
      "Table: t\nColumns:\n  - c (INT)\nRow count: 1\n".data ∧
    format_schema_for_prompt exSchema ≠ claimed_format_schema exSchema := by
  refine ⟨by decide, by decide⟩

/-- Claim C3, amended: For every schema_info, `format_schema_for_prompt`
returns the concatenation, over the tables in iteration order, of the block
`"Table: <name>"`, then the line `"Columns:"`, then one line
`"  - <name> (<type>)"` per column, then `"Row count: <n>"`, then a blank
line — with the trailing newline of the final block dropped, since the
`"\n".join` emits no terminator after the last (empty) line. -/
theorem format_schema_block_structure (schema : SchemaInfo) :
    format_schema_for_prompt schema =
      (schema_blocks (schema.tables.getD [])).dropLast := by
  rw [format_schema_for_prompt]
  generalize schema.tables.getD [] = ts
  induction ts with
  | nil => rfl
  | cons t ts ih =>
    rw [show schemaLines (t :: ts) = tableLines t.1 t.2 ++ schemaLines ts from by
      simp [schemaLines]]
    rw [show schema_blocks (t :: ts) = table_block t.1 t.2 ++ schema_blocks ts from by
      simp [schema_blocks]]
    by_cases hts : ts = []
    · subst hts
      simp only [schemaLines, List.flatMap_nil, List.append_nil, schema_blocks,
        List.map_nil, List.flatten_nil]
      rw [← pyJoin_tableLines, List.dropLast_concat]
    · rw [pyJoin_append _ _ _ (tableLines_ne_nil t.1 t.2) (schemaLines_ne_nil ts hts)]
      rw [List.dropLast_append_of_ne_nil _ (schema_blocks_ne_nil ts hts)]
      rw [ih, pyJoin_tableLines]

theorem wrapError_error_shape (pre : List Char)
    (r : Except (List Char) (List Char)) (m : List Char)
    (h : wrapError pre r = .error m) : ∃ e, r = .error e ∧ m = pre ++ e := by
  cases r with
  | error e => exact ⟨e, rfl, by injection h with h; exact h.symm⟩
  | ok v => exact absurd h (by simp [wrapError])

theorem generate_sql_selected (env : Env)
    (apiO apiA : List Char → Except (List Char) (List Char))
    (req : QueryRequest) (schema : SchemaInfo) :
    generate_sql env apiO apiA req schema =
      match selected_provider env req with
      | .openai => generate_sql_with_openai env apiO req.query schema
      | .anthropic => generate_sql_with_anthropic env apiA req.query schema := by
  by_cases h1 : envTruthy env.OPENAI_API_KEY <;>
    by_cases h2 : has_bedrock_credentials env <;>
      by_cases h3 : req.llm_provider = "openai".data <;>
        simp [generate_sql, selected_provider, h1, h2, h3]

/-- Claim C4: The provider selection is made once and there is no fallback:
`generate_sql` is exactly the selected variant, which never consults the other
endpoint.  Every failure — whether the endpoint raises or the credentials are
missing — surfaces as an error whose message is the selected provider's
wrapper prefix (naming the provider) followed by the original error text,
never a silent `.ok`. -/
theorem generate_sql_error_wrapping (env : Env)
    (apiO apiA : List Char → Except (List Char) (List Char))
    (req : QueryRequest) (schema : SchemaInfo) :
    (generate_sql env apiO apiA req schema =
      match selected_provider env req with
      | .openai => generate_sql_with_openai env apiO req.query schema
      | .anthropic => generate_sql_with_anthropic env apiA req.query schema) ∧
    (∀ m, generate_sql env apiO apiA req schema = .error m →
      ∃ e, m = "Error generating SQL with ".data ++
        providerName (selected_provider env req) ++ ": ".data ++ e) ∧
    (∀ e, selected_provider env req = .openai →
      envTruthy env.OPENAI_API_KEY = true →
      apiO = (fun _ => .error e) →
      generate_sql env apiO apiA req schema =
        .error ("Error generating SQL with OpenAI: ".data ++ e)) ∧
    (∀ e, selected_provider env req = .anthropic →
      has_bedrock_credentials env = true →
      apiA = (fun _ => .error e) →
      generate_sql env apiO apiA req schema =
        .error ("Error generating SQL with Anthropic: ".data ++ e)) ∧
    (selected_provider env req = .openai →
      envTruthy env.OPENAI_API_KEY = false →
      generate_sql env apiO apiA req schema =
        .error "Error generating SQL with OpenAI: OPENAI_API_KEY environment variable not set".data) ∧
    (selected_provider env req = .anthropic →
      has_bedrock_credentials env = false →
      generate_sql env apiO apiA req schema =
        .error "Error generating SQL with Anthropic: AWS credentials not set (AWS_ACCESS_KEY_ID/AWS_ACCESS_KEY and AWS_SECRET_ACCESS_KEY)".data) := by
  have hsel := generate_sql_selected env apiO apiA req schema
  refine ⟨hsel, ?_, ?_, ?_, ?_, ?_⟩
  · intro m hm
    rw [hsel] at hm
    cases hs : selected_provider env req with
    | openai =>
      rw [hs] at hm
      obtain ⟨e, _, hm⟩ := wrapError_error_shape _ _ _ hm
      refine ⟨e, ?_⟩
      rw [hm]
      rw [show ("Error generating SQL with OpenAI: ".data : List Char) =
        "Error generating SQL with ".data ++ providerName Provider.openai ++ ": ".data
        from by decide]
    | anthropic =>
      rw [hs] at hm
      obtain ⟨e, _, hm⟩ := wrapError_error_shape _ _ _ hm
      refine ⟨e, ?_⟩
      rw [hm]
      rw [show ("Error generating SQL with Anthropic: ".data : List Char) =
        "Error generating SQL with ".data ++ providerName Provider.anthropic ++ ": ".data
        from by decide]
  · intro e hs hkey happ
    rw [hsel, hs, happ]
    simp [generate_sql_with_openai, hkey, wrapError, Except.map]
  · intro e hs hcred happ
    rw [hsel, hs, happ]
    simp [generate_sql_with_anthropic, hcred, wrapError, Except.map]
  · intro hs hkey
    rw [hsel, hs]
    simp [generate_sql_with_openai, hkey, wrapError]
  · intro hs hcred
    rw [hsel, hs]
    simp [generate_sql_with_anthropic, hcred, wrapError]

/-- Witness for C4: with only the OpenAI key set and an endpoint raising
`"API Error"`, `generate_sql` raises the wrapped OpenAI error. -/
theorem generate_sql_error_wrapping_witness :
    generate_sql envOpenAI apiErr apiOk ⟨"q".data, "anthropic".data⟩ ⟨some []⟩ =
      .error ("Error generating SQL with OpenAI: ".data ++ "API Error".data) :=
  (generate_sql_error_wrapping envOpenAI apiErr apiOk ⟨"q".data, "anthropic".data⟩
    ⟨some []⟩).2.2.1 "API Error".data (by decide) (by decide) rfl

theorem dropWhile_dropWhile (p : Char → Bool) (l : List Char) :
    (l.dropWhile p).dropWhile p = l.dropWhile p := by
  cases h : l.dropWhile p with
  | nil => rfl
  | cons a t =>
    have hp : p a = false := by
      have h2 := List.head_dropWhile_not p l (by rw [h]; exact List.cons_ne_nil a t)
      simpa [h] using h2
    simp [List.dropWhile_cons, hp]

theorem dropWhile_eq_self_of_isPrefix {p : Char → Bool} {l l' : List Char}
    (hl : l.dropWhile p = l) (hp : l' <+: l) : l'.dropWhile p = l' := by
  cases l' with
  | nil => rfl
  | cons a t =>
    cases l with
    | nil => simp at hp
    | cons b u =>
      have hab : a = b := (List.cons_prefix_cons.mp hp).1
      have hb : p b = false := by
        by_contra hc
        rw [List.dropWhile_cons, if_pos (by simpa using hc)] at hl
        have hlen := congrArg List.length hl
        have hle := (List.dropWhile_suffix (l := u) p).length_le
        simp at hlen
        omega
      subst hab
      simp [List.dropWhile_cons, hb]

theorem rstrip_isPrefix (l : List Char) : rstrip l <+: l := by
  have h1 : l.reverse.dropWhile pyIsSpace <:+ l.reverse := List.dropWhile_suffix _
  have h2 := List.reverse_prefix.mpr h1
  rwa [List.reverse_reverse] at h2

theorem lstrip_idem (l : List Char) : lstrip (lstrip l) = lstrip l :=
  dropWhile_dropWhile pyIsSpace l

theorem rstrip_idem (l : List Char) : rstrip (rstrip l) = rstrip l := by
  unfold rstrip
  rw [List.reverse_reverse, dropWhile_dropWhile]

theorem lstrip_rstrip (l : List Char) (h : lstrip l = l) :
    lstrip (rstrip l) = rstrip l :=
  dropWhile_eq_self_of_isPrefix h (rstrip_isPrefix l)

theorem pyStrip_idem (s : List Char) : pyStrip (pyStrip s) = pyStrip s := by
  unfold pyStrip
  rw [lstrip_rstrip (lstrip s) (lstrip_idem s), rstrip_idem]

/-- Claim C6, counterexample: Stripping is not idempotent: on
`"` ```\n```sql\nfoo\n```\n``` `"` one pass peels the outer fence and leaves
`"` ```sql\nfoo\n``` `"`, which a second pass strips further to `"foo"`. -/
theorem strip_fences_not_idempotent_cex :
    strip_markdown_fences (strip_markdown_fences "```\n```sql\nfoo\n```\n```".data) ≠
      strip_markdown_fences "```\n```sql\nfoo\n```\n```".data := by
  decide

/-- Claim C6, amended: The stripping step is idempotent on every string whose
stripped result no longer starts with an opening fence marker nor ends with a
closing fence marker: on such strings a second application is a no-op.  (The
counterexample shows this side condition cannot be dropped.) -/
theorem strip_fences_idempotent_when_clean (s : List Char)
    (h1 : "```".data.isPrefixOf (strip_markdown_fences s) = false)
    (h2 : "```".data.isSuffixOf (strip_markdown_fences s) = false) :
    strip_markdown_fences (strip_markdown_fences s) = strip_markdown_fences s := by
  have htag : "```sql".data.isPrefixOf (strip_markdown_fences s) = false := by
    by_contra hc
    have hc' : "```sql".data.isPrefixOf (strip_markdown_fences s) = true := by
      simpa using hc
    have hpre : "```".data <+: strip_markdown_fences s :=
      List.IsPrefix.trans (by decide) (List.isPrefixOf_iff_prefix.mp hc')
    rw [← List.isPrefixOf_iff_prefix] at hpre
    rw [h1] at hpre
    exact Bool.false_ne_true hpre
  have e1 : strip_open_tagged (strip_markdown_fences s) = strip_markdown_fences s := by
    simp [strip_open_tagged, htag]
  have e2 : strip_open_generic (strip_markdown_fences s) = strip_markdown_fences s := by
    simp [strip_open_generic, h1]
  have e3 : strip_close (strip_markdown_fences s) = strip_markdown_fences s := by
    simp [strip_close, h2]
  calc strip_markdown_fences (strip_markdown_fences s)
      = pyStrip (strip_close (strip_open_generic (strip_open_tagged
          (strip_markdown_fences s)))) := rfl
    _ = pyStrip (strip_markdown_fences s) := by rw [e1, e2, e3]
    _ = strip_markdown_fences s :=
        pyStrip_idem (strip_close (strip_open_generic (strip_open_tagged s)))

/-- Witness for C6 amended at `"` ```sql\nSELECT 1\n``` `"`, whose
stripped form `"SELECT 1"` carries no fence marker. -/
theorem strip_fences_idempotent_when_clean_witness :
    strip_markdown_fences (strip_markdown_fences "```sql\nSELECT 1\n```".data) =
      strip_markdown_fences "```sql\nSELECT 1\n```".data :=
  strip_fences_idempotent_when_clean "```sql\nSELECT 1\n```".data (by decide) (by decide)

theorem splitNl_ne_nil : ∀ s : List Char, splitNl s ≠ []
  | [] => by simp [splitNl]
  | c :: rest => by
    cases h : splitNl rest with
    | nil => exact absurd h (splitNl_ne_nil rest)
    | cons l ls => simp only [splitNl, h]; split <;> simp

theorem splitNl_append_no_nl :
    ∀ (x : List Char), '\n' ∉ x → ∀ s : List Char,
      splitNl (x ++ s) = (x ++ (splitNl s).headD []) :: (splitNl s).tail
  | [], _, s => by
    cases h : splitNl s with
    | nil => exact absurd h (splitNl_ne_nil s)
    | cons l ls => simp [h]
  | c :: x', hx, s => by
    have hc : c ≠ '\n' := fun h => hx (h ▸ List.mem_cons_self c x')
    have ih := splitNl_append_no_nl x' (fun h => hx (List.mem_cons_of_mem c h)) s
    show splitNl (c :: (x' ++ s)) = _
    cases h : splitNl (x' ++ s) with
    | nil => exact absurd h (splitNl_ne_nil _)
    | cons l ls =>
      rw [h] at ih
      injection ih with ih1 ih2
      simp only [splitNl, h, if_neg hc]
      rw [ih1, ih2]
      simp

theorem splitNl_pyJoin :
    ∀ L : List (List Char), L ≠ [] → (∀ l ∈ L, '\n' ∉ l) →
      splitNl (pyJoin ['\n'] L) = L
  | [], h, _ => absurd rfl h
  | [x], _, hnl => by
    have h := splitNl_append_no_nl x (hnl x (by simp)) []
    simpa [pyJoin, splitNl] using h
  | x :: y :: L', _, hnl => by
    have hx : '\n' ∉ x := hnl x (by simp)
    have ih := splitNl_pyJoin (y :: L') (List.cons_ne_nil _ _)
      (fun l hl => hnl l (List.mem_cons_of_mem x hl))
    show splitNl ((x ++ ['\n']) ++ pyJoin ['\n'] (y :: L')) = x :: y :: L'
    rw [List.append_assoc]
    rw [splitNl_append_no_nl x hx]
    have hsplit : splitNl ('\n' :: pyJoin ['\n'] (y :: L')) =
        [] :: splitNl (pyJoin ['\n'] (y :: L')) := by
      cases h : splitNl (pyJoin ['\n'] (y :: L')) with
      | nil => exact absurd h (splitNl_ne_nil _)
      | cons l ls => simp [splitNl, h]
    rw [show (['\n'] ++ pyJoin ['\n'] (y :: L') : List Char) =
      '\n' :: pyJoin ['\n'] (y :: L') from rfl]
    rw [hsplit, ih]
    simp

theorem isPrefixOf_false_of_head_ne {a b : Char} (hab : a ≠ b)
    (l₁ l₂ : List Char) : (a :: l₁).isPrefixOf (b :: l₂) = false := by
  rw [Bool.eq_false_iff]
  intro h
  exact hab (List.cons_prefix_cons.mp (List.isPrefixOf_iff_prefix.mp h)).1

theorem isTableHeaderLine_hdr (name : List Char) :
    isTableHeaderLine ("Table: ".data ++ name) = true :=
  List.isPrefixOf_iff_prefix.mpr ⟨name, rfl⟩

theorem isRowCountLine_rc (n : Nat) :
    isRowCountLine ("Row count: ".data ++ natRepr n) = true :=
  List.isPrefixOf_iff_prefix.mpr ⟨natRepr n, rfl⟩

theorem isTableHeaderLine_col (c : List Char × List Char) :
    isTableHeaderLine ("  - ".data ++ c.1 ++ " (".data ++ c.2 ++ [')']) = false :=
  isPrefixOf_false_of_head_ne (by decide) _ _

theorem isRowCountLine_col (c : List Char × List Char) :
    isRowCountLine ("  - ".data ++ c.1 ++ " (".data ++ c.2 ++ [')']) = false :=
  isPrefixOf_false_of_head_ne (by decide) _ _

theorem isTableHeaderLine_rc (n : Nat) :
    isTableHeaderLine ("Row count: ".data ++ natRepr n) = false :=
  isPrefixOf_false_of_head_ne (by decide) _ _

theorem isRowCountLine_hdr (name : List Char) :
    isRowCountLine ("Table: ".data ++ name) = false :=
  isPrefixOf_false_of_head_ne (by decide) _ _

theorem countP_tableLines_header (name : List Char) (ti : TableInfo) :
    List.countP isTableHeaderLine (tableLines name ti) = 1 := by
  have hcols : List.countP isTableHeaderLine
      (ti.columns.map (fun c => "  - ".data ++ c.1 ++ " (".data ++ c.2 ++ [')'])) = 0 := by
    rw [List.countP_eq_zero]
    rintro l hl
    obtain ⟨c, _, rfl⟩ := List.mem_map.mp hl
    exact ne_true_of_eq_false (isTableHeaderLine_col c)
  have hColumns : isTableHeaderLine "Columns:".data = false := by decide
  have hnil : isTableHeaderLine ([] : List Char) = false := by decide
  unfold tableLines
  rw [List.countP_append, List.countP_cons, List.countP_cons, List.countP_cons,
    List.countP_cons, List.countP_nil, hcols, isTableHeaderLine_hdr, hColumns,
    hnil, isTableHeaderLine_rc]
  decide

theorem countP_tableLines_rowcount (name : List Char) (ti : TableInfo) :
    List.countP isRowCountLine (tableLines name ti) = 1 := by
  have hcols : List.countP isRowCountLine
      (ti.columns.map (fun c => "  - ".data ++ c.1 ++ " (".data ++ c.2 ++ [')'])) = 0 := by
    rw [List.countP_eq_zero]
    rintro l hl
    obtain ⟨c, _, rfl⟩ := List.mem_map.mp hl
    exact ne_true_of_eq_false (isRowCountLine_col c)
  have hColumns : isRowCountLine "Columns:".data = false := by decide
  have hnil : isRowCountLine ([] : List Char) = false := by decide
  unfold tableLines
  rw [List.countP_append, List.countP_cons, List.countP_cons, List.countP_cons,
    List.countP_cons, List.countP_nil, hcols, isRowCountLine_hdr, hColumns,
    hnil, isRowCountLine_rc]
  decide

theorem countP_schemaLines_header :
    ∀ ts : List (List Char × TableInfo),
      List.countP isTableHeaderLine (schemaLines ts) = ts.length
  | [] => rfl
  | t :: ts => by
    have ih := countP_schemaLines_header ts
    simp only [schemaLines, List.flatMap_cons, List.countP_append] at ih ⊢
    rw [countP_tableLines_header, ih]
    simp [Nat.add_comm]

theorem countP_schemaLines_rowcount :
    ∀ ts : List (List Char × TableInfo),
      List.countP isRowCountLine (schemaLines ts) = ts.length
  | [] => rfl
  | t :: ts => by
    have ih := countP_schemaLines_rowcount ts
    simp only [schemaLines, List.flatMap_cons, List.countP_append] at ih ⊢
    rw [countP_tableLines_rowcount, ih]
    simp [Nat.add_comm]

theorem natRepr_no_nl : ∀ (fuel n : Nat) (acc : List Char),
    (∀ c ∈ acc, c ≠ '\n') → ∀ c ∈ natReprGo fuel n acc, c ≠ '\n'
  | 0, _, _, hacc => hacc
  | fuel+1, n, acc, hacc => by
    rw [natReprGo]
    split
    · intro c hc
      rcases List.mem_cons.mp hc with h | h
      · subst h
        have hd : n < 10 := by omega
        revert hd
        show n < 10 → digitChar n ≠ '\n'
        intro hd
        interval_cases n <;> decide
      · exact hacc c h
    · exact natRepr_no_nl fuel (n / 10) _ (by
        intro c hc
        rcases List.mem_cons.mp hc with h | h
        · subst h
          have hd : n % 10 < 10 := Nat.mod_lt n (by omega)
          revert hd
          show n % 10 < 10 → digitChar (n % 10) ≠ '\n'
          intro hd
          interval_cases h : (n % 10) <;> decide
        · exact hacc c h)

theorem tableLines_no_nl (name : List Char) (ti : TableInfo)
    (hn : '\n' ∉ name)
    (hc : ∀ c ∈ ti.columns, '\n' ∉ c.1 ∧ '\n' ∉ c.2) :
    ∀ l ∈ tableLines name ti, '\n' ∉ l := by
  intro l hl
  unfold tableLines at hl
  rcases List.mem_append.mp hl with hl | hl
  · rcases List.mem_cons.mp hl with rfl | hl
    · intro hmem
      rcases List.mem_append.mp hmem with h | h
      · exact absurd h (by decide)
      · exact hn h
    rcases List.mem_cons.mp hl with rfl | hl
    · decide
    obtain ⟨c, hcmem, rfl⟩ := List.mem_map.mp hl
    obtain ⟨h1, h2⟩ := hc c hcmem
    intro hmem
    rcases List.mem_append.mp hmem with hmem | h
    · rcases List.mem_append.mp hmem with hmem | h
      · rcases List.mem_append.mp hmem with hmem | h
        · rcases List.mem_append.mp hmem with h | h
          · exact absurd h (by decide)
          · exact h1 h
        · exact absurd h (by decide)
      · exact h2 h
    · exact absurd h (by decide)
  · rcases List.mem_cons.mp hl with rfl | hl
    · intro hmem
      rcases List.mem_append.mp hmem with h | h
      · exact absurd h (by decide)
      · exact natRepr_no_nl (ti.row_count + 1) ti.row_count [] (by simp) '\n' h rfl
    rcases List.mem_cons.mp hl with rfl | hl
    · simp
    · exact absurd hl (List.not_mem_nil l)

theorem schemaLines_no_nl :
    ∀ ts : List (List Char × TableInfo),
      (∀ t ∈ ts, '\n' ∉ t.1 ∧ ∀ c ∈ t.2.columns, '\n' ∉ c.1 ∧ '\n' ∉ c.2) →
      ∀ l ∈ schemaLines ts, '\n' ∉ l
  | [], _, l, hl => by simp [schemaLines] at hl
  | t :: ts, h, l, hl => by
    simp only [schemaLines, List.flatMap_cons, List.mem_append] at hl
    rcases hl with hl | hl
    · exact tableLines_no_nl t.1 t.2 (h t (by simp)).1 (h t (by simp)).2 l hl
    · exact schemaLines_no_nl ts (fun u hu => h u (List.mem_cons_of_mem t hu)) l hl

/-- Claim C8, counterexample: the claim quantifies over every schema_info,
but when a table name itself contains a newline followed by `"Table: "`, the
returned string has two `Table:` header lines for a single table. -/
theorem format_schema_counts_cex :
    (exSchemaNl.tables.getD []).length = 1 ∧
    List.countP isTableHeaderLine (splitNl (format_schema_for_prompt exSchemaNl)) ≠ 1 := by
  refine ⟨by decide, by decide⟩

/-- Claim C8, amended: for every schema whose table names, column names and column types
contain no newline, the string returned by `format_schema_for_prompt` has, as
lines, exactly one `"Table: "` header per table and exactly one
`"Row count: "` line per table. -/
theorem format_schema_counts (schema : SchemaInfo)
    (h : ∀ t ∈ schema.tables.getD [],
      '\n' ∉ t.1 ∧ ∀ c ∈ t.2.columns, '\n' ∉ c.1 ∧ '\n' ∉ c.2) :
    List.countP isTableHeaderLine (splitNl (format_schema_for_prompt schema)) =
      (schema.tables.getD []).length ∧
    List.countP isRowCountLine (splitNl (format_schema_for_prompt schema)) =
      (schema.tables.getD []).length := by
  rcases hts : schema.tables.getD [] with _ | ⟨t, ts⟩
  · constructor <;> · simp only [format_schema_for_prompt, hts]; decide
  · rw [hts] at h
    simp only [format_schema_for_prompt, hts]
    rw [splitNl_pyJoin _ (schemaLines_ne_nil _ (List.cons_ne_nil _ _))
      (schemaLines_no_nl _ h)]
    exact ⟨countP_schemaLines_header _, countP_schemaLines_rowcount _⟩

/-- Witness for C8 at a concrete two-table schema. -/
theorem format_schema_counts_witness :
    List.countP isTableHeaderLine (splitNl (format_schema_for_prompt
      ⟨some [("t1".data, ⟨[("a".data, "INT".data)], 3⟩),
             ("t2".data, ⟨[], 0⟩)]⟩)) = 2 ∧
    List.countP isRowCountLine (splitNl (format_schema_for_prompt
      ⟨some [("t1".data, ⟨[("a".data, "INT".data)], 3⟩),
             ("t2".data, ⟨[], 0⟩)]⟩)) = 2 :=
  format_schema_counts
    ⟨some [("t1".data, ⟨[("a".data, "INT".data)], 3⟩), ("t2".data, ⟨[], 0⟩)]⟩
    (by decide)

end LLMProcessor
